import Mathlib

/-!
# Verification of the Smartdoc EHR integration subsystem

Shallow embedding of the FHIR resource builder (`backend/ehr_service.py`),
the EHR database operations (`backend/ehr_database.py`) and the
`/api/ehr/submit-prescription` boundary logic (`backend/server.py`),
together with theorems settling the specification claims about them.

Conventions of the embedding:
* Python dict/JSON values are modelled by the inductive type `JVal`.
* Wall-clock reads (`datetime.now(...)`) are modelled by explicit `now`
  parameters (a `String` for ISO timestamps, a `Nat` for stored instants).
* `uuid.uuid4()` draws are modelled by an explicit supply `uuids : Nat → String`,
  each created resource reading a distinct fixed index of the supply.
* Fallible Python operations return `Option`/`Except`; `try/except` blocks
  become `match` on those results.
-/

namespace Smartdoc

/-- JSON-like values, modelling Python dicts/lists/strings/numbers as produced
by `model_dump()` and consumed by the FHIR builders. Numeric values that the
source produces with `int(...)` are `i`; values produced with `float(...)` are
`q num scale`, the exact decimal `num / 10^scale` that the source parsed.
Arrays and objects are built from explicit cons cells so that equality is
derivable; the smart constructors `JVal.arr` and `JVal.obj` below give list
syntax. -/
inductive JVal where
  | null
  | b (v : Bool)
  | i (v : Int)
  | q (num : Int) (scale : Nat)
  | s (v : String)
  | arrNil
  | arrCons (hd tl : JVal)
  | objNil
  | objCons (k : String) (v tl : JVal)
deriving DecidableEq, Repr

/-- JSON array from a list of values. -/
def JVal.arr : List JVal → JVal
  | [] => .arrNil
  | v :: vs => .arrCons v (JVal.arr vs)

/-- JSON object from a list of key/value pairs. -/
def JVal.obj : List (String × JVal) → JVal
  | [] => .objNil
  | (k, v) :: kvs => .objCons k v (JVal.obj kvs)

/-- The key/value pairs of a JSON object, `none` on non-objects. -/
def JVal.objKvs? : JVal → Option (List (String × JVal))
  | .objNil => some []
  | .objCons k v tl => (JVal.objKvs? tl).map (fun kvs => (k, v) :: kvs)
  | _ => none

/-- The elements of a JSON array, `none` on non-arrays. -/
def JVal.arrElems? : JVal → Option (List JVal)
  | .arrNil => some []
  | .arrCons v tl => (JVal.arrElems? tl).map (fun vs => v :: vs)
  | _ => none

/-- Key lookup in a JSON object (first occurrence), `none` on non-objects or
missing keys. -/
def JVal.lookupKey : JVal → String → Option JVal
  | .objCons k v tl, key => if k = key then some v else JVal.lookupKey tl key
  | _, _ => none

/-- `models.PatientInfo` (backend/models.py, lines 118–128): all fields are
optional free-text strings. -/
structure PatientInfo where
  name : Option String := none
  age : Option String := none
  gender : Option String := none
  height : Option String := none
  weight : Option String := none
  blood_pressure : Option String := none
  temperature : Option String := none
  heart_rate : Option String := none
  respiratory_rate : Option String := none
  oxygen_saturation : Option String := none
deriving DecidableEq, Repr

/-- Python attribute lookup on a `PatientInfo` pydantic model: `some v` when
the attribute exists (`hasattr` is true) with value `v`, `none` when the model
has no such attribute. In particular the attribute `"bp"` read by
`create_vital_signs_observations` does not exist on `PatientInfo`. -/
def PatientInfo.pyGetAttr (p : PatientInfo) : String → Option (Option String)
  | "name" => some p.name
  | "age" => some p.age
  | "gender" => some p.gender
  | "height" => some p.height
  | "weight" => some p.weight
  | "blood_pressure" => some p.blood_pressure
  | "temperature" => some p.temperature
  | "heart_rate" => some p.heart_rate
  | "respiratory_rate" => some p.respiratory_rate
  | "oxygen_saturation" => some p.oxygen_saturation
  | _ => none

/-- Truthiness of the Python guard `hasattr(obj, a) and obj.a` for a string
attribute: yields the string when the attribute exists, is not `None` and is
non-empty. -/
def attrTruthy : Option (Option String) → Option String
  | some (some s) => if s = "" then none else some s
  | _ => none

/-- ASCII whitespace as stripped by Python's `str.strip()` / `int()` /
`float()`. -/
def isPyWs (c : Char) : Bool :=
  c = ' ' || c = '\t' || c = '\n' || c = '\r' || c = '\x0b' || c = '\x0c'

/-- Strip leading and trailing whitespace from a character list
(`str.strip()`). -/
def trimChars (l : List Char) : List Char :=
  ((l.dropWhile isPyWs).reverse.dropWhile isPyWs).reverse

/-- Numeric value of a run of decimal digits. -/
def digitsVal (l : List Char) : Nat :=
  l.foldl (fun a c => a * 10 + (c.toNat - 48)) 0

/-- Parse a non-empty run of decimal digits, `none` otherwise. -/
def parseDigits (l : List Char) : Option Nat :=
  if l ≠ [] ∧ l.all Char.isDigit then some (digitsVal l) else none

/-- Split a character list at every occurrence of `sep`, keeping empty
segments, as Python's `str.split(sep)` does. -/
def splitOnChar (sep : Char) : List Char → List (List Char)
  | [] => [[]]
  | c :: cs =>
      let rest := splitOnChar sep cs
      if c = sep then [] :: rest
      else
        match rest with
        | h :: t => (c :: h) :: t
        | [] => [[c]]

/-- Python `s.split(sep)` for a one-character separator. -/
def pySplitChar (sep : Char) (s : String) : List String :=
  (splitOnChar sep s.data).map String.mk

/-- Python `int(s)` on a string: strips surrounding whitespace, accepts an
optional sign followed by decimal digits; raises (here: `none`) otherwise.
(Underscore separators and non-ASCII digits, which CPython also accepts, do
not occur in the repository's data and are not modelled.) -/
def pyInt (s : String) : Option Int :=
  match trimChars s.data with
  | '-' :: rest => (parseDigits rest).map (fun n => -(n : Int))
  | '+' :: rest => (parseDigits rest).map (fun n => (n : Int))
  | l => (parseDigits l).map (fun n => (n : Int))

/-- `10 ^ n` over the integers, by structural recursion so it reduces in the
kernel. -/
def pow10 : Nat → Int
  | 0 => 1
  | n + 1 => 10 * pow10 n

/-- Python `float(s)` on a plain decimal literal: optional sign, digits with
an optional fractional part (at least one digit overall). The result is the
exact decimal `num / 10^scale`, as a pair. (Exponent forms and `inf`/`nan`,
which do not occur in vitals data, are not modelled.) -/
def pyFloat (s : String) : Option (Int × Nat) :=
  let t := trimChars s.data
  let (sign, body) :=
    match t with
    | '-' :: rest => ((-1 : Int), rest)
    | '+' :: rest => ((1 : Int), rest)
    | l => ((1 : Int), l)
  match splitOnChar '.' body with
  | [w] => (parseDigits w).map (fun n => (sign * (n : Int), 0))
  | [w, f] =>
      if (w ≠ [] ∨ f ≠ []) ∧ w.all Char.isDigit ∧ f.all Char.isDigit then
        some (sign * ((digitsVal w : Int) * pow10 f.length + (digitsVal f : Int)), f.length)
      else none
  | _ => none

/-- Whether the decimal `num / 10^scale` is greater than the natural number
`n` (used for the source's `temp_value > 45` unit heuristic). -/
def decGtNat (num : Int) (scale : Nat) (n : Nat) : Bool :=
  (n : Int) * pow10 scale < num

/-- Python `s.lower()` (ASCII). -/
def pyLower (s : String) : String := String.mk (s.data.map Char.toLower)

/-- Helper for `pyTitle`: uppercase a letter that follows a non-letter,
lowercase the rest; the flag records whether the previous character was a
letter. -/
def titleAux : Bool → List Char → List Char
  | _, [] => []
  | prevAlpha, c :: cs =>
      if c.isAlpha then
        (if prevAlpha then c.toLower else c.toUpper) :: titleAux true cs
      else c :: titleAux false cs

/-- Python `s.title()` (ASCII). -/
def pyTitle (s : String) : String := String.mk (titleAux false s.data)

/-- Python `s.replace(' ', '-')`. -/
def pyReplaceSpaceDash (s : String) : String :=
  String.mk (s.data.map (fun c => if c = ' ' then '-' else c))

/-- Substring containment on character lists. -/
def containsChars (needle : List Char) : List Char → Bool
  | [] => needle.isEmpty
  | c :: cs => needle.isPrefixOf (c :: cs) || containsChars needle cs

/-- Python `needle in s` for strings. -/
def pyInStr (needle s : String) : Bool := containsChars needle.data s.data

/-- Helper for `pySplitWs`, accumulating the current token reversed. -/
def splitWsAux (acc : List Char) : List Char → List (List Char)
  | [] => if acc.isEmpty then [] else [acc.reverse]
  | c :: cs =>
      if isPyWs c then
        if acc.isEmpty then splitWsAux [] cs else acc.reverse :: splitWsAux [] cs
      else splitWsAux (c :: acc) cs

/-- Python `s.split()` with no arguments: whitespace runs separate tokens and
empty tokens are dropped. -/
def pySplitWs (s : String) : List String := (splitWsAux [] s.data).map String.mk

/-- Helper for `pySplit1Space`. -/
def splitFirstAux (acc : List Char) : List Char → List String
  | [] => [String.mk acc.reverse]
  | c :: cs =>
      if c = ' ' then [String.mk acc.reverse, String.mk cs]
      else splitFirstAux (c :: acc) cs

/-- Python `s.split(' ', 1)`: at most one split, at the first space. -/
def pySplit1Space (s : String) : List String := splitFirstAux [] s.data

/-- Decimal digits of a natural number (`fuel` bounds the recursion). -/
def natDigitsAux : Nat → Nat → List Char
  | 0, _ => []
  | fuel + 1, n =>
      if n < 10 then [Char.ofNat (48 + n)]
      else natDigitsAux fuel (n / 10) ++ [Char.ofNat (48 + n % 10)]

/-- Python `str(n)` for a natural number. -/
def natToStr (n : Nat) : String := String.mk (natDigitsAux (n + 1) n)

/-- Python `str(n)` / f-string rendering of an integer. -/
def intToStr : Int → String
  | .ofNat n => natToStr n
  | .negSucc n => "-" ++ natToStr (n + 1)

/-- Truthiness of an optional Python string (`None` and `""` are falsy). -/
def strTruthy : Option String → Option String
  | some s => if s = "" then none else some s
  | none => none

/-- `models.FHIRObservation` (backend/models.py, lines 286–297). -/
structure FHIRObservation where
  resourceType : String := "Observation"
  id : Option String := none
  status : String := "final"
  category : List JVal := []
  code : JVal
  subject : JVal
  encounter : Option JVal := none
  effectiveDateTime : Option String := none
  valueQuantity : Option JVal := none
  valueString : Option String := none
  component : List JVal := []
deriving DecidableEq, Repr

/-- The vital-signs category entry appended to every vitals observation. -/
def vitalSignsCategory : JVal :=
  .obj [("coding", .arr [.obj [
    ("system", .s "http://terminology.hl7.org/CodeSystem/observation-category"),
    ("code", .s "vital-signs"),
    ("display", .s "Vital Signs")]])]

/-- LOINC 85354-9 code object of the blood-pressure observation. -/
def bpCode : JVal :=
  .obj [("coding", .arr [.obj [
    ("system", .s "http://loinc.org"),
    ("code", .s "85354-9"),
    ("display", .s "Blood pressure panel with all children optional")]])]

/-- LOINC 8867-4 code object of the heart-rate observation. -/
def hrCode : JVal :=
  .obj [("coding", .arr [.obj [
    ("system", .s "http://loinc.org"),
    ("code", .s "8867-4"),
    ("display", .s "Heart rate")]])]

/-- LOINC 8310-5 code object of the body-temperature observation. -/
def tempCode : JVal :=
  .obj [("coding", .arr [.obj [
    ("system", .s "http://loinc.org"),
    ("code", .s "8310-5"),
    ("display", .s "Body temperature")]])]

/-- One component of the blood-pressure observation (systolic or diastolic). -/
def bpComponent (loinc display : String) (v : Int) : JVal :=
  .obj [
    ("code", .obj [("coding", .arr [.obj [
      ("system", .s "http://loinc.org"),
      ("code", .s loinc),
      ("display", .s display)]])]),
    ("valueQuantity", .obj [
      ("value", .i v),
      ("unit", .s "mmHg"),
      ("system", .s "http://unitsofmeasure.org"),
      ("code", .s "mm[Hg]")])]

/-- Pydantic construction of a `FHIRObservation` with keyword arguments: the
model's `code` and `subject` fields (backend/models.py, lines 291–292) are
declared without defaults, so they are required and construction raises
`ValidationError` — a `ValueError` subclass — whenever either is missing.
The source's zero-argument `FHIRObservation()` calls pass neither. -/
def FHIRObservation.construct (c subj : Option JVal := none) :
    Except String FHIRObservation :=
  match c, subj with
  | some code, some subject => .ok { code := code, subject := subject }
  | _, _ => .error "ValidationError: 2 validation errors for FHIRObservation"

/-- The field assignments the BP branch of
`create_vital_signs_observations` performs on a constructed observation
(unreachable in the program: `FHIRObservation()` raises first). -/
def fillBpObs (obs : FHIRObservation) (uuid now patient_reference : String)
    (encounter_reference : Option String) (systolic diastolic : Int) :
    FHIRObservation :=
  { obs with
    id := some uuid
    category := obs.category ++ [vitalSignsCategory]
    code := bpCode
    subject := .obj [("reference", .s patient_reference)]
    encounter :=
      match encounter_reference with
      | some e => some (.obj [("reference", .s e)])
      | none => obs.encounter
    effectiveDateTime := some now
    component := [
      bpComponent "8480-6" "Systolic blood pressure" systolic,
      bpComponent "8462-4" "Diastolic blood pressure" diastolic] }

/-- The field assignments of the HR branch (unreachable in the program). -/
def fillHrObs (obs : FHIRObservation) (uuid now patient_reference : String)
    (encounter_reference : Option String) (hr : Int) : FHIRObservation :=
  { obs with
    id := some uuid
    category := obs.category ++ [vitalSignsCategory]
    code := hrCode
    subject := .obj [("reference", .s patient_reference)]
    encounter :=
      match encounter_reference with
      | some e => some (.obj [("reference", .s e)])
      | none => obs.encounter
    effectiveDateTime := some now
    valueQuantity := some (.obj [
      ("value", .i hr),
      ("unit", .s "beats/min"),
      ("system", .s "http://unitsofmeasure.org"),
      ("code", .s "/min")]) }

/-- The field assignments of the temperature branch (unreachable in the
program); the unit would be chosen by the `temp_value > 45` heuristic. -/
def fillTempObs (obs : FHIRObservation) (uuid now patient_reference : String)
    (encounter_reference : Option String) (tnum : Int) (tscale : Nat) :
    FHIRObservation :=
  { obs with
    id := some uuid
    category := obs.category ++ [vitalSignsCategory]
    code := tempCode
    subject := .obj [("reference", .s patient_reference)]
    encounter :=
      match encounter_reference with
      | some e => some (.obj [("reference", .s e)])
      | none => obs.encounter
    effectiveDateTime := some now
    valueQuantity := some (.obj [
      ("value", .q tnum tscale),
      ("unit", .s (if decGtNat tnum tscale 45 then "°F" else "°C")),
      ("system", .s "http://unitsofmeasure.org"),
      ("code", .s (if decGtNat tnum tscale 45 then "[degF]" else "Cel"))]) }

/-- `FHIRService.create_vital_signs_observations`
(backend/ehr_service.py, lines 251–391).

The blood-pressure branch is guarded by
`hasattr(patient_info, 'bp') and patient_info.bp`: the attribute read is
`'bp'`, while the `PatientInfo` model's field is `blood_pressure`, so
`PatientInfo.pyGetAttr "bp" = none` and the guard is always false. The
heart-rate and temperature branches read the existing attributes
`heart_rate` and `temperature`, but each begins with a zero-argument
`FHIRObservation()` whose `ValidationError` (a `ValueError`) is swallowed by
the branch's `except (ValueError, AttributeError)` — so in the program no
observation is ever emitted and the function always returns `[]`. In the
temperature branch `float(...)` runs before the construction; in the BP
branch the construction precedes the `int(...)` parses. `uuid.uuid4()`
draws are modelled by fixed distinct indices of the `uuids` supply
(0 for BP, 1 for HR, 2 for temperature). -/
def create_vital_signs_observations (uuids : Nat → String) (now : String)
    (patient_info : PatientInfo) (patient_reference : String)
    (encounter_reference : Option String) : List FHIRObservation :=
  let bpPart : List FHIRObservation :=
    match attrTruthy (patient_info.pyGetAttr "bp") with
    | some bp =>
        match pySplitChar '/' bp with
        | [systolic, diastolic] =>
            match FHIRObservation.construct with
            | .error _ => []
            | .ok obs =>
                match pyInt systolic, pyInt diastolic with
                | some sv, some dv =>
                    [fillBpObs obs (uuids 0) now patient_reference
                      encounter_reference sv dv]
                | _, _ => []
        | _ => []
    | none => []
  let hrPart : List FHIRObservation :=
    match attrTruthy (patient_info.pyGetAttr "heart_rate") with
    | some hr =>
        match FHIRObservation.construct with
        | .error _ => []
        | .ok obs =>
            match pyInt hr with
            | some hv =>
                [fillHrObs obs (uuids 1) now patient_reference
                  encounter_reference hv]
            | none => []
    | none => []
  let tempPart : List FHIRObservation :=
    match attrTruthy (patient_info.pyGetAttr "temperature") with
    | some temp =>
        match pyFloat temp with
        | some (tn, ts) =>
            match FHIRObservation.construct with
            | .error _ => []
            | .ok obs =>
                [fillTempObs obs (uuids 2) now patient_reference
                  encounter_reference tn ts]
        | none => []
    | none => []
  bpPart ++ hrPart ++ tempPart

/-- Whether an observation is the blood-pressure observation (LOINC 85354-9). -/
def isBpObs (o : FHIRObservation) : Bool := o.code == bpCode

/-- Optional value to JSON, `None` becoming `null`. -/
def optJ (f : α → JVal) : Option α → JVal
  | none => .null
  | some a => f a

/-- `model_dump()` of a `FHIRObservation`: the dict with the model's fields in
declaration order, `None` rendered as `null`. -/
def FHIRObservation.model_dump (o : FHIRObservation) : JVal :=
  .obj [
    ("resourceType", .s o.resourceType),
    ("id", optJ .s o.id),
    ("status", .s o.status),
    ("category", .arr o.category),
    ("code", o.code),
    ("subject", o.subject),
    ("encounter", optJ (fun v => v) o.encounter),
    ("effectiveDateTime", optJ .s o.effectiveDateTime),
    ("valueQuantity", optJ (fun v => v) o.valueQuantity),
    ("valueString", optJ .s o.valueString),
    ("component", .arr o.component)]

/-- `models.FHIRBundle` (backend/models.py, lines 299–304). -/
structure FHIRBundle where
  resourceType : String := "Bundle"
  id : Option String := none
  type : String := "transaction"
  timestamp : Option String := none
  entry : List JVal := []
deriving DecidableEq, Repr

/-- The transaction entry `create_fhir_bundle` wraps each resource dict in:
request method `POST`, request URL the resource's own `resourceType`
(`"Unknown"` if absent). -/
def bundleEntry (r : JVal) : JVal :=
  .obj [
    ("resource", r),
    ("request", .obj [
      ("method", .s "POST"),
      ("url", (r.lookupKey "resourceType").getD (.s "Unknown"))])]

/-- `FHIRService.create_fhir_bundle` (backend/ehr_service.py, lines 393–413):
wraps each resource dict in a transaction entry and stamps the bundle with
the current time. -/
def create_fhir_bundle (now : String) (resources : List JVal)
    (bundle_id : Option String := none) : FHIRBundle :=
  { id := bundle_id
    timestamp := some now
    entry := resources.map bundleEntry }

/-- `models.FHIRPatient` (backend/models.py, lines 244–253). -/
structure FHIRPatient where
  resourceType : String := "Patient"
  id : Option String := none
  identifier : List JVal := []
  active : Bool := true
  name : List JVal := []
  telecom : List JVal := []
  gender : Option String := none
  birthDate : Option String := none
  address : List JVal := []
deriving DecidableEq, Repr

/-- `models.FHIRPractitioner` (backend/models.py, lines 255–262). -/
structure FHIRPractitioner where
  resourceType : String := "Practitioner"
  id : Option String := none
  identifier : List JVal := []
  active : Bool := true
  name : List JVal := []
  telecom : List JVal := []
  qualification : List JVal := []
deriving DecidableEq, Repr

/-- `models.FHIRMedicationRequest` (backend/models.py, lines 264–274). -/
structure FHIRMedicationRequest where
  resourceType : String := "MedicationRequest"
  id : Option String := none
  status : String := "active"
  intent : String := "order"
  medicationCodeableConcept : JVal
  subject : JVal
  requester : JVal
  dosageInstruction : List JVal := []
  authoredOn : Option String := none
  note : List JVal := []
deriving DecidableEq, Repr

/-- Pydantic construction of a `FHIRMedicationRequest`:
`medicationCodeableConcept`, `subject` and `requester` have no defaults, so
construction raises `ValidationError` whenever any of them is missing. The
source's zero-argument `FHIRMedicationRequest()` call passes none. -/
def FHIRMedicationRequest.construct (mcc subj req : Option JVal := none) :
    Except String FHIRMedicationRequest :=
  match mcc, subj, req with
  | some m, some s, some r =>
      .ok { medicationCodeableConcept := m, subject := s, requester := r }
  | _, _, _ =>
      .error "ValidationError: 3 validation errors for FHIRMedicationRequest"

/-- `models.FHIREncounter` (backend/models.py, lines 276–284). -/
structure FHIREncounter where
  resourceType : String := "Encounter"
  id : Option String := none
  status : String := "finished"
  class_ : JVal
  subject : JVal
  participant : List JVal := []
  period : JVal
  reasonCode : List JVal := []
deriving DecidableEq, Repr

/-- Pydantic construction of a `FHIREncounter`: `class_` (alias `"class"`),
`subject` and `period` have no defaults, so construction raises
`ValidationError` whenever any of them is missing. The source's
zero-argument `FHIREncounter()` call passes none. -/
def FHIREncounter.construct (c subj per : Option JVal := none) :
    Except String FHIREncounter :=
  match c, subj, per with
  | some cl, some su, some pe =>
      .ok { class_ := cl, subject := su, period := pe }
  | _, _, _ => .error "ValidationError: 3 validation errors for FHIREncounter"

/-- `models.Medication` (backend/models.py, lines 109–116): all fields are
required; the enum-typed fields (`formulation`, `route`, `food_instruction`)
are modelled by their string values (every member's value is a non-empty
string). -/
structure Medication where
  name : String
  dosage : String
  formulation : String
  route : String
  frequency : String
  food_instruction : String
  duration : String
deriving DecidableEq, Repr

/-- The doctor-information dict consumed by
`create_practitioner_resource` (`doctor_info.get(...)` reads these keys). -/
structure DoctorInfo where
  name : Option String := none
  degree : Option String := none
  registration_number : Option String := none
deriving DecidableEq, Repr

/-- `models.Prescription` (backend/models.py, lines 140–150), restricted to
the fields the EHR pipeline reads. -/
structure Prescription where
  id : Option String := none
  doctor_id : String
  patient_info : PatientInfo
  diagnosis : String
  medications : List Medication
  prognosis : String
  transcript : Option String := none
deriving DecidableEq, Repr

/-- `FHIRService.create_patient_resource` (backend/ehr_service.py, lines
28–81). `currentYear` models `datetime.now().year`. The identifier branch is
guarded by `hasattr(patient_info, 'patient_id')`, an attribute `PatientInfo`
does not have, so it never fires; the embedding keeps the guard through
`pyGetAttr`. -/
def create_patient_resource (currentYear : Int) (patient_info : PatientInfo)
    (patient_id : Option String) : FHIRPatient :=
  let identifier : List JVal :=
    match attrTruthy (patient_info.pyGetAttr "patient_id") with
    | some pid =>
        [.obj [
          ("use", .s "usual"),
          ("type", .obj [("coding", .arr [.obj [
            ("system", .s "http://terminology.hl7.org/CodeSystem/v2-0203"),
            ("code", .s "MR"),
            ("display", .s "Medical Record Number")]])]),
          ("value", .s pid)]]
    | none => []
  let nameList : List JVal :=
    match strTruthy patient_info.name with
    | some nm =>
        let name_parts := pySplit1Space nm
        let given_name := match name_parts with
          | p0 :: _ => [p0]
          | [] => []
        let family_name := match name_parts with
          | _ :: p1 :: _ => p1
          | _ => ""
        [.obj [
          ("use", .s "official"),
          ("family", .s family_name),
          ("given", .arr (given_name.map JVal.s))]]
    | none => []
  let gender : Option String :=
    match strTruthy patient_info.gender with
    | some g =>
        some (match pyTitle (pyLower g) with
          | "Male" => "male"
          | "Female" => "female"
          | "Other" => "other"
          | "Unknown" => "unknown"
          | _ => "unknown")
    | none => none
  let birthDate : Option String :=
    match strTruthy patient_info.age with
    | some age =>
        match pyInt age with
        | some a => some (intToStr (currentYear - a) ++ "-01-01")
        | none => none
    | none => none
  { id := patient_id
    identifier := identifier
    name := nameList
    gender := gender
    birthDate := birthDate }

/-- `FHIRService.create_practitioner_resource` (backend/ehr_service.py,
lines 83–130). -/
def create_practitioner_resource (doctor_info : DoctorInfo)
    (practitioner_id : Option String) : FHIRPractitioner :=
  let identifier : List JVal :=
    match strTruthy doctor_info.registration_number with
    | some reg =>
        [.obj [
          ("use", .s "official"),
          ("type", .obj [("coding", .arr [.obj [
            ("system", .s "http://terminology.hl7.org/CodeSystem/v2-0203"),
            ("code", .s "PRN"),
            ("display", .s "Provider Number")]])]),
          ("value", .s reg)]]
    | none => []
  let nameList : List JVal :=
    match strTruthy doctor_info.name with
    | some nm =>
        let name_parts := pySplit1Space nm
        let given_name := match name_parts with
          | p0 :: _ => [p0]
          | [] => []
        let family_name := match name_parts with
          | _ :: p1 :: _ => p1
          | _ => ""
        [.obj [
          ("use", .s "official"),
          ("family", .s family_name),
          ("given", .arr (given_name.map JVal.s)),
          ("prefix", .arr [.s "Dr."])]]
    | none => []
  let qualification : List JVal :=
    match strTruthy doctor_info.degree with
    | some deg =>
        [.obj [("code", .obj [("coding", .arr [.obj [
          ("system", .s "http://terminology.hl7.org/CodeSystem/v2-0360"),
          ("code", .s "MD"),
          ("display", .s deg)]])])]]
    | none => []
  { id := practitioner_id
    identifier := identifier
    name := nameList
    qualification := qualification }

/-- `FHIRService.create_medication_request_resource`
(backend/ehr_service.py, lines 132–201). `now` models the
`datetime.now(timezone.utc).isoformat()` read for `authoredOn`. The
function begins with a zero-argument `FHIRMedicationRequest()`, which
raises `ValidationError` (required `medicationCodeableConcept` / `subject` /
`requester`), so in the program this builder raises on every call; the
subsequent field assignments are kept to mirror the source's unreachable
remainder. -/
def create_medication_request_resource (now : String) (medication : Medication)
    (patient_reference practitioner_reference : String)
    (medication_request_id : Option String) :
    Except String FHIRMedicationRequest := do
  let med_request ← FHIRMedicationRequest.construct
  let codeSlug := "rxnorm-" ++ pyReplaceSpaceDash (pyLower medication.name)
  let dosageInstruction : List JVal :=
    if medication.dosage ≠ "" ∨ medication.frequency ≠ "" ∨ medication.duration ≠ "" then
      let freq : Int :=
        if medication.frequency ≠ "" then
          let fl := pyLower medication.frequency
          if pyInStr "twice" fl || pyInStr "bid" fl then 2
          else if pyInStr "three" fl || pyInStr "tid" fl then 3
          else if pyInStr "four" fl || pyInStr "qid" fl then 4
          else 1
        else 1
      let doseAndRate : List (String × JVal) :=
        if medication.dosage ≠ "" then
          let tok := match pySplitWs medication.dosage with
            | t :: _ => t
            | [] => "1"
          [("doseAndRate", .arr [.obj [("doseQuantity", .obj [
            ("value", .s tok),
            ("unit", .s (if medication.formulation ≠ "" then medication.formulation
                         else "tablet"))])]])]
        else []
      [.obj ([
        ("text", .s (medication.dosage ++ " " ++ medication.frequency ++ " for " ++
          medication.duration)),
        ("timing", .obj [("repeat", .obj [
          ("frequency", .i freq),
          ("period", .i 1),
          ("periodUnit", .s "d")])])] ++ doseAndRate)]
    else []
  let note : List JVal :=
    if medication.food_instruction ≠ "" then
      [.obj [("text", .s ("Take " ++ pyLower medication.food_instruction))]]
    else []
  pure { med_request with
    id :=
      match medication_request_id with
      | some i => some i
      | none => med_request.id
    medicationCodeableConcept := .obj [
      ("coding", .arr [.obj [
        ("system", .s "http://www.nlm.nih.gov/research/umls/rxnorm"),
        ("code", .s codeSlug),
        ("display", .s medication.name)]]),
      ("text", .s medication.name)]
    subject := .obj [("reference", .s patient_reference)]
    requester := .obj [("reference", .s practitioner_reference)]
    dosageInstruction := med_request.dosageInstruction ++ dosageInstruction
    authoredOn := some now
    note := med_request.note ++ note }

/-- `FHIRService.create_encounter_resource` (backend/ehr_service.py, lines
203–249). `now` models the single `datetime.now(timezone.utc).isoformat()`
used for both period endpoints. The function begins with a zero-argument
`FHIREncounter()`, which raises `ValidationError` (required `class` /
`subject` / `period`), so in the program this builder raises on every call;
the subsequent field assignments are kept to mirror the source's
unreachable remainder. -/
def create_encounter_resource (now : String)
    (patient_reference practitioner_reference : String)
    (encounter_id : Option String) (diagnosis : Option String) :
    Except String FHIREncounter := do
  let encounter ← FHIREncounter.construct
  pure { encounter with
    id :=
      match encounter_id with
      | some i => some i
      | none => encounter.id
    class_ := .obj [
      ("system", .s "http://terminology.hl7.org/CodeSystem/v3-ActCode"),
      ("code", .s "AMB"),
      ("display", .s "ambulatory")]
    subject := .obj [("reference", .s patient_reference)]
    participant := encounter.participant ++ [.obj [
      ("type", .arr [.obj [("coding", .arr [.obj [
        ("system", .s "http://terminology.hl7.org/CodeSystem/v3-ParticipationType"),
        ("code", .s "PPRF"),
        ("display", .s "primary performer")]])]]),
      ("individual", .obj [("reference", .s practitioner_reference)])]]
    period := .obj [("start", .s now), ("end", .s now)]
    reasonCode := encounter.reasonCode ++
      (match strTruthy diagnosis with
      | some d => [.obj [("text", .s d)]]
      | none => []) }

/-- `model_dump()` of a `FHIRPatient`. -/
def FHIRPatient.model_dump (p : FHIRPatient) : JVal :=
  .obj [
    ("resourceType", .s p.resourceType),
    ("id", optJ .s p.id),
    ("identifier", .arr p.identifier),
    ("active", .b p.active),
    ("name", .arr p.name),
    ("telecom", .arr p.telecom),
    ("gender", optJ .s p.gender),
    ("birthDate", optJ .s p.birthDate),
    ("address", .arr p.address)]

/-- `model_dump()` of a `FHIRPractitioner`. -/
def FHIRPractitioner.model_dump (p : FHIRPractitioner) : JVal :=
  .obj [
    ("resourceType", .s p.resourceType),
    ("id", optJ .s p.id),
    ("identifier", .arr p.identifier),
    ("active", .b p.active),
    ("name", .arr p.name),
    ("telecom", .arr p.telecom),
    ("qualification", .arr p.qualification)]

/-- `model_dump()` of a `FHIRMedicationRequest`. -/
def FHIRMedicationRequest.model_dump (m : FHIRMedicationRequest) : JVal :=
  .obj [
    ("resourceType", .s m.resourceType),
    ("id", optJ .s m.id),
    ("status", .s m.status),
    ("intent", .s m.intent),
    ("medicationCodeableConcept", m.medicationCodeableConcept),
    ("subject", m.subject),
    ("requester", m.requester),
    ("dosageInstruction", .arr m.dosageInstruction),
    ("authoredOn", optJ .s m.authoredOn),
    ("note", .arr m.note)]

/-- `model_dump()` of a `FHIREncounter` (pydantic serialises the aliased
`class_` field under its alias `"class"`). -/
def FHIREncounter.model_dump (e : FHIREncounter) : JVal :=
  .obj [
    ("resourceType", .s e.resourceType),
    ("id", optJ .s e.id),
    ("status", .s e.status),
    ("class", e.class_),
    ("subject", e.subject),
    ("participant", .arr e.participant),
    ("period", e.period),
    ("reasonCode", .arr e.reasonCode)]

/-- The resource-building part of
`EHRIntegrationService.submit_prescription_to_ehr`
(backend/ehr_service.py, lines 516–564): Patient, Practitioner and Encounter
with assigned ids, one MedicationRequest per medication (with its assigned
id), then the vital-signs observations, each dumped to a dict. In the
program `create_encounter_resource` raises `ValidationError` on every call
(and `create_medication_request_resource` would as well), so this step
always raises before any medication or vital is processed and no resource
list is ever produced. -/
def build_submission_resources (obsUuids : Nat → String) (now : String)
    (currentYear : Int) (prescription : Prescription) (doctor_info : DoctorInfo)
    (patient_id practitioner_id encounter_id : String) (medIds : Nat → String) :
    Except String (List JVal) := do
  let patient := create_patient_resource currentYear prescription.patient_info
    (some patient_id)
  let practitioner := create_practitioner_resource doctor_info (some practitioner_id)
  let encounter ← create_encounter_resource now ("Patient/" ++ patient_id)
    ("Practitioner/" ++ practitioner_id) (some encounter_id)
    (some prescription.diagnosis)
  let medication_requests ← prescription.medications.enum.mapM (fun im => do
    let m ← create_medication_request_resource now im.2
      ("Patient/" ++ patient_id) ("Practitioner/" ++ practitioner_id)
      (some (medIds im.1))
    pure m.model_dump)
  let vital_observations := create_vital_signs_observations obsUuids now
    prescription.patient_info ("Patient/" ++ patient_id)
    (some ("Encounter/" ++ encounter_id))
  pure ([patient.model_dump, practitioner.model_dump, encounter.model_dump] ++
    medication_requests ++ vital_observations.map FHIRObservation.model_dump)

/-- The bundle `submit_prescription_to_ehr` would build and post: the
resource list above passed to `create_fhir_bundle` (no bundle id). In the
program the resource building raises first, so `create_fhir_bundle` is
never reached from this pipeline. -/
def build_submission_bundle (obsUuids : Nat → String) (now : String)
    (currentYear : Int) (prescription : Prescription) (doctor_info : DoctorInfo)
    (patient_id practitioner_id encounter_id : String) (medIds : Nat → String) :
    Except String FHIRBundle := do
  let resources ← build_submission_resources obsUuids now currentYear
    prescription doctor_info patient_id practitioner_id encounter_id medIds
  pure (create_fhir_bundle now resources)

/-- `models.EHRConfiguration` (backend/models.py, lines 202–215); the
`provider` enum is modelled by its string value. -/
structure EHRConfiguration where
  provider : String
  base_url : String
  client_id : Option String := none
  client_secret : Option String := none
  auth_url : Option String := none
  token_url : Option String := none
  scope : Option String := some "patient/*.read patient/*.write"
  use_oauth : Bool := true
  api_key : Option String := none
  organization_id : Option String := none
  facility_id : Option String := none
  timeout : Int := 30
  verify_ssl : Bool := true
deriving DecidableEq, Repr

/-- Outcome of the HTTP POST in `submit_prescription_to_ehr`:
either a response (with status, whether the declared content type is JSON,
and the parsed-JSON/text bodies) or an exception anywhere in the `try`
block (connection errors and malformed-JSON `response.json()` failures
included), carrying `str(e)`. -/
inductive HttpOutcome where
  | resp (status : Nat) (isJson : Bool) (jsonBody : JVal) (textBody : String)
  | exn (msg : String)
deriving DecidableEq, Repr

/-- The dict returned by `submit_prescription_to_ehr`; keys the source omits
on a branch are `none`. -/
structure SubmitResult where
  success : Bool
  status_code : Option Nat := none
  response : Option JVal := none
  error : Option String := none
  submitted_bundle : Option FHIRBundle := none
  patient_fhir_id : Option String := none
  encounter_fhir_id : Option String := none
deriving DecidableEq, Repr

/-- `EHRIntegrationService.submit_prescription_to_ehr`
(backend/ehr_service.py, lines 505–606). The whole body sits in one `try`:
resource building first, then the HTTP POST. The `uuid.uuid4()` draws are
read off the supply in generation order: patient, practitioner, encounter,
one per medication, then the vital-sign observation ids. An exception in
the resource building — which in the program happens on every call, at
`create_encounter_resource` — or in the POST (the `outcome` parameter)
lands in the `except` branch: `success=False`, the exception message and
null ids. On a response, `success` is `status in [200, 201]` and
`response` is the parsed JSON when the content type declares JSON, else the
raw text; that branch is unreachable in the program. -/
def submit_prescription_to_ehr (uuids : Nat → String) (now : String)
    (currentYear : Int) (prescription : Prescription) (doctor_info : DoctorInfo)
    (config : EHRConfiguration) (outcome : HttpOutcome) : SubmitResult :=
  let patient_id := uuids 0
  let practitioner_id := uuids 1
  let encounter_id := uuids 2
  let medIds : Nat → String := fun i => uuids (3 + i)
  let obsUuids : Nat → String := fun j =>
    uuids (3 + prescription.medications.length + j)
  match build_submission_bundle obsUuids now currentYear prescription
    doctor_info patient_id practitioner_id encounter_id medIds with
  | .error msg =>
      { success := false
        error := some msg
        submitted_bundle := none
        patient_fhir_id := none
        encounter_fhir_id := none }
  | .ok bundle =>
      match outcome with
      | .resp status isJson jsonBody textBody =>
          { success := status = 200 ∨ status = 201
            status_code := some status
            response := some (if isJson then jsonBody else .s textBody)
            submitted_bundle := some bundle
            patient_fhir_id := some patient_id
            encounter_fhir_id := some encounter_id }
      | .exn msg =>
          { success := false
            error := some msg
            submitted_bundle := none
            patient_fhir_id := none
            encounter_fhir_id := none }

/-- `models.EHRConnectionStatus` (backend/models.py, lines 196–200). -/
inductive EHRConnectionStatus where
  | connected
  | disconnected
  | testing
  | error
deriving DecidableEq, Repr

/-- `models.EHRConnectionTest` (backend/models.py, lines 217–224);
`response_time` (float seconds) is modelled opaquely by an `Int`
measurement, `last_tested` by a `Nat` instant. -/
structure EHRConnectionTest where
  provider : String
  status : EHRConnectionStatus
  message : String
  response_time : Option Int := none
  last_tested : Nat
  capabilities : Option (List String) := none
  fhir_version : Option String := none
deriving DecidableEq, Repr

/-- Result of the `response.json()` call in `test_ehr_connection`: the parsed
value, or the exception text when the body is not valid JSON / the content
type is wrong. -/
inductive JsonRes where
  | ok (v : JVal)
  | err (msg : String)
deriving DecidableEq, Repr

/-- Outcome of the GET in `test_ehr_connection`: a response (status, body),
`asyncio.TimeoutError`, or any other exception. -/
inductive ConnOutcome where
  | resp (status : Nat) (jsonResult : JsonRes) (text : String)
  | timeout
  | exn (msg : String)
deriving DecidableEq, Repr

/-- Python `k in v` for a JSON value: key test on dicts, membership on lists,
substring test on strings, `TypeError` otherwise. -/
def pyIn (k : String) (v : JVal) : Except String Bool :=
  match v with
  | .objNil | .objCons .. => .ok (v.lookupKey k).isSome
  | .arrNil | .arrCons .. => .ok (((v.arrElems?).getD []).contains (.s k))
  | .s str => .ok (pyInStr k str)
  | _ => .error "TypeError: argument of type 'int' is not iterable"

/-- Python `v[k]` for a string key: dict lookup (`KeyError` when missing),
`TypeError` on non-dicts. -/
def pyIndexStr (v : JVal) (k : String) : Except String JVal :=
  match v with
  | .objNil | .objCons .. =>
      match v.lookupKey k with
      | some x => .ok x
      | none => .error ("KeyError: " ++ k)
  | _ => .error "TypeError: value is not subscriptable with a string"

/-- Python iteration `for x in v`: list elements, dict keys, the characters
of a string; `TypeError` otherwise. -/
def pyIterate (v : JVal) : Except String (List JVal) :=
  match v.arrElems? with
  | some vs => .ok vs
  | none =>
      match v.objKvs? with
      | some kvs => .ok (kvs.map (fun kv => .s kv.1))
      | none =>
          match v with
          | .s str => .ok (str.data.map (fun c => .s (String.mk [c])))
          | _ => .error "TypeError: value is not iterable"

/-- The capability/`fhirVersion` extraction of the HTTP-200 branch of
`test_ehr_connection` (backend/ehr_service.py, lines 460–470):
`rest[].resource[].type` collected when present, `data["fhirVersion"]` read
when present; every Python-level `KeyError`/`TypeError` propagates (to be
caught by the surrounding `except`). -/
def extractCaps (data : JVal) : Except String (List JVal × Option JVal) := do
  let hasRest ← pyIn "rest" data
  let caps ←
    if hasRest then do
      let restV ← pyIndexStr data "rest"
      let rests ← pyIterate restV
      rests.foldlM (fun acc rest => do
        let hasRes ← pyIn "resource" rest
        if hasRes then do
          let resV ← pyIndexStr rest "resource"
          let rs ← pyIterate resV
          let ts ← rs.mapM (fun r => pyIndexStr r "type")
          pure (acc ++ ts)
        else pure acc) ([] : List JVal)
    else pure []
  let hasVer ← pyIn "fhirVersion" data
  let ver ← if hasVer then do
      let v ← pyIndexStr data "fhirVersion"
      pure (some v)
    else pure none
  pure (caps, ver)

/-- Python `list(set(l))`: raises `TypeError` on unhashable elements
(lists/dicts); the resulting order, unspecified in CPython, is modelled as
first-occurrence order. -/
def pySetDedup (l : List JVal) : Except String (List JVal) :=
  if l.all (fun v => match v with
      | .arrNil | .arrCons .. | .objNil | .objCons .. => false
      | _ => true) then
    .ok l.dedup
  else .error "TypeError: unhashable type"

/-- Pydantic validation of a `str`-typed field value. -/
def asStr : JVal → Except String String
  | .s str => .ok str
  | _ => .error "ValidationError: str type expected"

/-- The CONNECTED result built in the HTTP-200 branch, or the exception any
of its steps raises (extraction, `list(set(...))`, pydantic validation of
`capabilities`/`fhir_version`). -/
def connect200 (provider : String) (rt : Int) (last_tested : Nat)
    (data : JVal) : Except String EHRConnectionTest := do
  let (caps, verV) ← extractCaps data
  let fhir_version ←
    match verV with
    | some v => (asStr v).map some
    | none => pure none
  let capabilities ←
    if caps.isEmpty then pure none
    else do
      let ded ← pySetDedup caps
      let strs ← ded.mapM asStr
      pure (some strs)
  pure { provider := provider
         status := .connected
         message := "Connection successful"
         response_time := some rt
         last_tested := last_tested
         capabilities := capabilities
         fhir_version := fhir_version }

/-- `EHRIntegrationService.test_ehr_connection`
(backend/ehr_service.py, lines 432–503). `rt` is the measured
`response_time`, `last_tested` the `start_time` instant. Every failure mode
— non-200 status, JSON parse failure, extraction/validation exception,
timeout, any other exception — resolves to a returned ERROR result; nothing
is raised (the function is total). -/
def test_ehr_connection (config : EHRConfiguration) (outcome : ConnOutcome)
    (rt : Int) (last_tested : Nat) : EHRConnectionTest :=
  match outcome with
  | .resp status jsonResult text =>
      if status = 200 then
        match jsonResult with
        | .ok data =>
            match connect200 config.provider rt last_tested data with
            | .ok t => t
            | .error e =>
                { provider := config.provider, status := .error,
                  message := "Connection error: " ++ e,
                  last_tested := last_tested }
        | .err e =>
            { provider := config.provider, status := .error,
              message := "Connection error: " ++ e,
              last_tested := last_tested }
      else
        { provider := config.provider, status := .error,
          message := "HTTP " ++ natToStr status ++ ": " ++ text,
          response_time := some rt, last_tested := last_tested }
  | .timeout =>
      { provider := config.provider, status := .error,
        message := "Connection timeout after " ++ intToStr config.timeout ++
          " seconds",
        last_tested := last_tested }
  | .exn msg =>
      { provider := config.provider, status := .error,
        message := "Connection error: " ++ msg,
        last_tested := last_tested }

/-- `models.EHRSubmission` (backend/models.py, lines 226–232); the provider
enum is its string value, dicts are `JVal`. -/
structure EHRSubmission where
  prescription_id : String
  ehr_provider : String
  patient_fhir_id : Option String := none
  encounter_fhir_id : Option String := none
  submission_data : JVal := .objNil
  metadata : Option JVal := none
deriving DecidableEq, Repr

/-- A stored document of the `ehr_submissions` collection: the
`model_dump()` of an `EHRSubmission` plus the fields
`save_ehr_submission` adds. `ehr_response` is an optional dict (kept as
key/value pairs so Python truthiness — non-empty — is expressible);
instants are `Nat`. -/
structure SubmissionRow where
  id : String
  doctor_id : String
  prescription_id : String
  ehr_provider : String
  patient_fhir_id : Option String := none
  encounter_fhir_id : Option String := none
  submission_data : JVal := .objNil
  metadata : Option JVal := none
  status : String
  retry_count : Nat
  submitted_at : Nat
  updated_at : Option Nat := none
  completed_at : Option Nat := none
  ehr_response : Option (List (String × JVal)) := none
  error_message : Option String := none
deriving DecidableEq, Repr

/-- `EHRDatabase.save_ehr_submission` (backend/ehr_database.py, lines
149–171): the inserted document — the submission's fields plus a fresh id,
the doctor id, `status="pending"`, `retry_count=0`, `submitted_at=now`, and
null `completed_at`/`ehr_response`/`error_message`. -/
def save_ehr_submission (doctor_id : String) (submission : EHRSubmission)
    (newId : String) (now : Nat) : SubmissionRow :=
  { id := newId
    doctor_id := doctor_id
    prescription_id := submission.prescription_id
    ehr_provider := submission.ehr_provider
    patient_fhir_id := submission.patient_fhir_id
    encounter_fhir_id := submission.encounter_fhir_id
    submission_data := submission.submission_data
    metadata := submission.metadata
    status := "pending"
    retry_count := 0
    submitted_at := now
    completed_at := none
    ehr_response := none
    error_message := none }

/-- Python truthiness of the optional `ehr_response` dict (`None` and `{}`
are falsy). -/
def dictTruthy : Option (List (String × JVal)) → Bool
  | some kvs => !kvs.isEmpty
  | none => false

/-- The `$set` document of `update_ehr_submission_status`
(backend/ehr_database.py, lines 182–206) applied to a row: always `status`
and `updated_at`; `completed_at` stamped for `"success"`/`"failed"`;
`ehr_response`/`error_message` only when truthy. -/
def setUpdate (status : String) (ehr_response : Option (List (String × JVal)))
    (error_message : Option String) (now : Nat) (r : SubmissionRow) :
    SubmissionRow :=
  { r with
    status := status
    updated_at := some now
    completed_at :=
      if status = "success" ∨ status = "failed" then some now else r.completed_at
    ehr_response :=
      if dictTruthy ehr_response then ehr_response else r.ehr_response
    error_message :=
      if (strTruthy error_message).isSome then error_message
      else r.error_message }

/-- Mongo `update_one`: apply `f` to the first document matching `p`;
the boolean is `modified_count > 0` (the matched document actually
changed). -/
def updateFirstBy {α : Type} [DecidableEq α] (p : α → Bool) (f : α → α) :
    List α → List α × Bool
  | [] => ([], false)
  | r :: rs =>
      if p r then
        ((f r) :: rs, f r ≠ r)
      else
        let res := updateFirstBy p f rs
        (r :: res.1, res.2)

/-- `EHRDatabase.update_ehr_submission_status` (backend/ehr_database.py,
lines 173–212): for `"retry"`, a first `update_one` performs
`$inc retry_count`; then an `update_one` applies the `$set` document. -/
def update_ehr_submission_status (coll : List SubmissionRow)
    (submission_id status : String)
    (ehr_response : Option (List (String × JVal)))
    (error_message : Option String) (now : Nat) :
    List SubmissionRow × Bool :=
  let coll1 :=
    if status = "retry" then
      (updateFirstBy (fun r => r.id == submission_id)
        (fun r => { r with retry_count := r.retry_count + 1 }) coll).1
    else coll
  updateFirstBy (fun r => r.id == submission_id)
    (setUpdate status ehr_response error_message now) coll1

/-- The `$inc` stage of `update_ehr_submission_status` (only for
`"retry"`). -/
def incRetry (status : String) (r : SubmissionRow) : SubmissionRow :=
  if status = "retry" then { r with retry_count := r.retry_count + 1 } else r

/-- Descending insertion (by `created_at`). -/
def insertDesc (x : Nat) : List Nat → List Nat
  | [] => [x]
  | y :: ys => if x ≥ y then x :: y :: ys else y :: insertDesc x ys

/-- Sort timestamps descending — the `created_at`-descending sort of the
pruning query. -/
def sortDesc (l : List Nat) : List Nat := l.foldr insertDesc []

/-- `EHRDatabase.save_ehr_connection_test` (backend/ehr_database.py, lines
257–283), tracked at the level of stored `created_at` instants for one
(doctor, provider) pair: the pruning query sorts the *existing* records
newest-first, skips 10 and deletes the rest; then the new record is
inserted. -/
def save_ehr_connection_test (hist : List Nat) (ts : Nat) : List Nat :=
  ts :: (sortDesc hist).take 10

/-- A sequence of connection-test saves with the given (increasing)
timestamps, starting from an empty history. -/
def saveConnectionTests (tss : List Nat) : List Nat :=
  tss.foldl save_ehr_connection_test []

/-- A stored document of the `ehr_configurations` collection: the
`model_dump()` of an `EHRConfiguration` plus the fields
`save_ehr_configuration` adds. -/
structure ConfigRow where
  provider : String
  base_url : String
  client_id : Option String := none
  client_secret : Option String := none
  auth_url : Option String := none
  token_url : Option String := none
  scope : Option String := none
  use_oauth : Bool := true
  api_key : Option String := none
  organization_id : Option String := none
  facility_id : Option String := none
  timeout : Int := 30
  verify_ssl : Bool := true
  id : String
  doctor_id : String
  created_at : Nat
  updated_at : Nat
  is_active : Bool
deriving DecidableEq, Repr

/-- The document `save_ehr_configuration` writes: the configuration's
fields plus id/doctor/created/updated/active. -/
def configRowOf (config : EHRConfiguration) (id doctor_id : String)
    (created_at updated_at : Nat) (is_active : Bool) : ConfigRow :=
  { provider := config.provider
    base_url := config.base_url
    client_id := config.client_id
    client_secret := config.client_secret
    auth_url := config.auth_url
    token_url := config.token_url
    scope := config.scope
    use_oauth := config.use_oauth
    api_key := config.api_key
    organization_id := config.organization_id
    facility_id := config.facility_id
    timeout := config.timeout
    verify_ssl := config.verify_ssl
    id := id
    doctor_id := doctor_id
    created_at := created_at
    updated_at := updated_at
    is_active := is_active }

/-- Mongo `replace_one({"id": i}, new)`: replace the first document with
that id. -/
def replaceFirstById : List ConfigRow → String → ConfigRow → List ConfigRow
  | [], _, _ => []
  | r :: rs, i, nr =>
      if r.id == i then nr :: rs else r :: replaceFirstById rs i nr

/-- `EHRDatabase.save_ehr_configuration` (backend/ehr_database.py, lines
53–89): `find_one` by (doctor_id, provider) — with no `is_active` filter —
then either `replace_one` keeping the existing id and `created_at`, or
`insert_one` of a fresh document; either way the written document has
`is_active=True` and `updated_at=now`. Returns the new collection and the
written document. -/
def save_ehr_configuration (coll : List ConfigRow) (doctor_id : String)
    (config : EHRConfiguration) (newId : String) (now : Nat) :
    List ConfigRow × ConfigRow :=
  match coll.find? (fun r =>
      r.doctor_id == doctor_id && r.provider == config.provider) with
  | some ex =>
      let row := configRowOf config ex.id doctor_id ex.created_at now true
      (replaceFirstById coll ex.id row, row)
  | none =>
      let row := configRowOf config newId doctor_id now now true
      (coll ++ [row], row)

/-- `EHRDatabase.get_ehr_configuration_by_provider`
(backend/ehr_database.py, lines 112–128): `find_one` by doctor, provider and
`is_active=True`. -/
def get_ehr_configuration_by_provider (coll : List ConfigRow)
    (doctor_id provider : String) : Option ConfigRow :=
  coll.find? (fun r =>
    r.doctor_id == doctor_id && r.provider == provider && r.is_active)

/-- `EHRDatabase.delete_ehr_configuration` (backend/ehr_database.py, lines
130–146): `update_one({"id": config_id, "doctor_id": doctor_id})` — no
`is_active` filter — setting `is_active=False` and stamping `updated_at`;
returns `modified_count > 0`. -/
def delete_ehr_configuration (coll : List ConfigRow)
    (doctor_id config_id : String) (now : Nat) : List ConfigRow × Bool :=
  updateFirstBy (fun r => r.id == config_id && r.doctor_id == doctor_id)
    (fun r => { r with is_active := false, updated_at := now }) coll

/-- A stored prescription, restricted to the fields the submission
endpoint's gate reads. -/
structure PrescriptionRow where
  id : String
  doctor_id : String
deriving DecidableEq, Repr

/-- Outcome of the lookup/ownership gate of the
`/api/ehr/submit-prescription` handler: an HTTP error (status and detail
string), or proceeding with the prescription. -/
inductive SubmitGate where
  | httpError (status : Nat) (detail : String)
  | proceed (p : PrescriptionRow)
deriving DecidableEq, Repr

/-- The prescription lookup and ownership check at the head of
`submit_prescription_to_ehr` in backend/server.py (lines 619–632):
a missing prescription raises `HTTPException(404, "Prescription not
found")`; an existing prescription owned by a different doctor raises
`HTTPException(403, "Access denied")`; otherwise the handler proceeds. -/
def submitPrescriptionGate (prescriptions : List PrescriptionRow)
    (prescription_id caller_id : String) : SubmitGate :=
  match prescriptions.find? (fun r => r.id == prescription_id) with
  | none => .httpError 404 "Prescription not found"
  | some p =>
      if p.doctor_id ≠ caller_id then .httpError 403 "Access denied"
      else .proceed p

/-- A concrete medication used in counterexamples. -/
def medEx : Medication :=
  { name := "Aspirin", dosage := "500mg", formulation := "Tablet",
    route := "Oral", frequency := "twice daily",
    food_instruction := "After meals", duration := "5 days" }

/-- A concrete prescription (with a parseable heart rate) used in
counterexamples. -/
def prescriptionEx : Prescription :=
  { doctor_id := "doc-1",
    patient_info := { name := some "John Smith", age := some "40",
                      gender := some "Male", heart_rate := some "72" },
    diagnosis := "Influenza", medications := [medEx], prognosis := "Good" }

/-- Concrete doctor information used in counterexamples. -/
def doctorEx : DoctorInfo :=
  { name := some "Jane Doe", degree := some "MBBS",
    registration_number := some "REG123" }

/-- A concrete EHR configuration used in witnesses and counterexamples. -/
def configEx : EHRConfiguration :=
  { provider := "Epic", base_url := "https://fhir.example.org/api/FHIR/R4/",
    api_key := some "key-1", timeout := 30 }

/-- A concrete EHR submission used in witnesses and counterexamples. -/
def subEx : EHRSubmission := { prescription_id := "rx-1", ehr_provider := "Epic" }

/-- A concrete freshly-created ledger row. -/
def subRowEx : SubmissionRow := save_ehr_submission "doc-1" subEx "sub-1" 3

/-- A first configuration for the upsert witness. -/
def cfg1 : EHRConfiguration :=
  { provider := "Epic", base_url := "https://old.example.org/" }

/-- A second configuration for the same (doctor, provider) pair. -/
def cfg2 : EHRConfiguration :=
  { provider := "Epic", base_url := "https://new.example.org/" }

/-- A concrete already-inactive configuration row. -/
def inactiveCfgRow : ConfigRow := configRowOf cfg1 "cfg-9" "doc-9" 1 5 false

/-- A concrete prescriptions table owned by doctor A. -/
def gateDbEx : List PrescriptionRow := [{ id := "rx-1", doctor_id := "doc-A" }]

end Smartdoc

namespace Smartdoc

/-- Helper: `create_vital_signs_observations` always returns `[]`: the
blood-pressure branch is dead (`hasattr(patient_info, 'bp')` is false on
`PatientInfo`), and the heart-rate and temperature branches always swallow
the `ValidationError` raised by the zero-argument `FHIRObservation()`
construction. -/
theorem cvso_always_empty (u : Nat → String) (now : String) (p : PatientInfo)
    (pref : String) (eref : Option String) :
    create_vital_signs_observations u now p pref eref = [] := by
  unfold create_vital_signs_observations
  rw [show attrTruthy (p.pyGetAttr "bp") = none from rfl]
  cases h1 : attrTruthy (p.pyGetAttr "heart_rate") <;>
    cases h2 : attrTruthy (p.pyGetAttr "temperature") <;>
      simp only [List.nil_append] <;>
      first
        | rfl
        | ((repeat' split) <;> simp_all [FHIRObservation.construct])

/-- **C1** (code_bug): the specification states that
`create_vital_signs_observations` includes a blood-pressure Observation
(LOINC 85354-9) exactly when `blood_pressure` is present and parses as
`"<int>/<int>"`. The code instead guards the branch with
`hasattr(patient_info, 'bp')`, and `PatientInfo` has no attribute `bp` (its
field is `blood_pressure`), so the blood-pressure observation is never
produced for any input — in particular not for the well-formed input
`blood_pressure = "120/80"`, where the specified behaviour would emit it. -/
theorem c1_blood_pressure_observation_never_produced :
    (∀ (u : Nat → String) (now : String) (p : PatientInfo)
       (pref : String) (eref : Option String),
       (create_vital_signs_observations u now p pref eref).filter isBpObs = []) ∧
    create_vital_signs_observations (fun _ => "obs-uuid") "2026-01-01T00:00:00+00:00"
      { blood_pressure := some "120/80" } "Patient/p" (some "Encounter/e") = [] := by
  refine ⟨fun u now p pref eref => ?_, by decide⟩
  rw [cvso_always_empty]
  rfl

/-- Helper: a string with a non-empty left part is non-empty. -/
theorem str_append_ne_empty (a b : String) (h : a ≠ "") : a ++ b ≠ "" := by
  intro hc
  apply h
  have hdata : (a ++ b).data = ([] : List Char) := by rw [hc]
  rw [String.data_append] at hdata
  rcases List.append_eq_nil.mp hdata with ⟨ha, _⟩
  cases a
  simpa [String.ext_iff] using ha

/-- Helper: whenever the HTTP-200 branch completes without an exception, the
result it built carries status CONNECTED. -/
theorem connect200_status (provider : String) (rt : Int) (lt : Nat)
    (data : JVal) (t : EHRConnectionTest)
    (h : connect200 provider rt lt data = .ok t) :
    t.status = .connected := by
  unfold connect200 at h
  simp only [bind, Except.bind, pure, Except.pure] at h
  repeat' split at h
  all_goals simp_all
  all_goals (cases h; rfl)


/-- **C2** (code_bug): the claim (and spec test property 6) says
`submit_prescription_to_ehr` returns `success=true` exactly when the remote
answers 200/201. In the program the resource building raises
`ValidationError` at `create_encounter_resource` — the zero-argument
`FHIREncounter()` with required `class`/`subject`/`period` — on every call,
before any HTTP POST is issued; the catch-all converts it to the failure
dict. So the result is always `success=false` carrying the validation
message and null ids, even when a remote 201 response is available (second
conjunct), and spec property 6 is false of the code. -/
theorem c2_submit_always_returns_validation_failure :
    (∀ (uuids : Nat → String) (now : String) (currentYear : Int)
       (p : Prescription) (d : DoctorInfo) (config : EHRConfiguration)
       (outcome : HttpOutcome),
       submit_prescription_to_ehr uuids now currentYear p d config outcome =
         { success := false,
           error :=
             some "ValidationError: 3 validation errors for FHIREncounter" }) ∧
    submit_prescription_to_ehr natToStr "2026-01-01T00:00:00+00:00" 2026
      prescriptionEx doctorEx configEx (.resp 201 true .objNil "") =
      { success := false,
        error :=
          some "ValidationError: 3 validation errors for FHIREncounter" } := by
  exact ⟨fun uuids now currentYear p d config outcome => rfl, rfl⟩

/-- **C3** (counterexample): the claim says HTTP 200 yields status CONNECTED.
But on a 200 response whose JSON body is the number `5`, the capability
probe `"rest" in data` raises `TypeError`, which the catch-all turns into an
ERROR result — so an HTTP 200 can yield ERROR, refuting the claim as
stated. -/
theorem c3_http200_with_non_dict_body_yields_error :
    (test_ehr_connection configEx (.resp 200 (.ok (.i 5)) "") 0 0).status =
      .error ∧
    (test_ehr_connection configEx (.resp 200 (.ok (.i 5)) "") 0 0).status ≠
      .connected := by decide

/-- **C3** (amended, proved): `test_ehr_connection` always returns an
`EHRConnectionTest` value (the embedding is total, modelling that nothing is
raised); the result is CONNECTED exactly when the response had HTTP 200, a
JSON body, and the capability/`fhirVersion` extraction raised no exception;
and in every other case — non-200 status, JSON parse failure, extraction or
validation exception, timeout, any other exception — the status is ERROR
with a non-empty message. -/
theorem c3_connection_test_total_and_failures_yield_error
    (config : EHRConfiguration) (outcome : ConnOutcome) (rt : Int) (lt : Nat) :
    ((test_ehr_connection config outcome rt lt).status = .connected ↔
      ∃ data text t, outcome = .resp 200 (.ok data) text ∧
        connect200 config.provider rt lt data = .ok t) ∧
    ((test_ehr_connection config outcome rt lt).status = .connected ∨
      ((test_ehr_connection config outcome rt lt).status = .error ∧
        (test_ehr_connection config outcome rt lt).message ≠ "")) := by
  cases outcome with
  | resp status jsonResult text =>
      by_cases h200 : status = 200
      · subst h200
        cases jsonResult with
        | ok data =>
            cases hc : connect200 config.provider rt lt data with
            | ok t =>
                have hst : (test_ehr_connection config
                    (.resp 200 (.ok data) text) rt lt) = t := by
                  simp [test_ehr_connection, hc]
                rw [hst]
                have := connect200_status config.provider rt lt data t hc
                exact ⟨⟨fun _ => ⟨data, text, t, rfl, hc⟩, fun _ => this⟩,
                  Or.inl this⟩
            | error e =>
                have hst : (test_ehr_connection config
                    (.resp 200 (.ok data) text) rt lt) =
                    { provider := config.provider, status := .error,
                      message := "Connection error: " ++ e,
                      last_tested := lt } := by
                  simp [test_ehr_connection, hc]
                rw [hst]
                refine ⟨⟨fun habs => by simp_all, ?_⟩,
                  Or.inr ⟨rfl, str_append_ne_empty _ _ (by decide)⟩⟩
                rintro ⟨data', text', t', heq, hok⟩
                cases heq
                rw [hc] at hok
                cases hok
        | err e =>
            refine ⟨⟨fun habs => by simp [test_ehr_connection] at habs, ?_⟩,
              Or.inr ⟨by simp [test_ehr_connection], ?_⟩⟩
            · rintro ⟨data', text', t', heq, hok⟩
              cases heq
            · simp only [test_ehr_connection, if_pos rfl]
              exact str_append_ne_empty _ _ (by decide)
      · refine ⟨⟨fun habs => ?_, ?_⟩, Or.inr ⟨?_, ?_⟩⟩
        · simp [test_ehr_connection, h200] at habs
        · rintro ⟨data', text', t', heq, hok⟩
          cases heq
          exact absurd rfl h200
        · simp [test_ehr_connection, h200]
        · simp only [test_ehr_connection, if_neg h200]
          exact str_append_ne_empty _ _
            (str_append_ne_empty _ _ (str_append_ne_empty _ _ (by decide)))
  | timeout =>
      refine ⟨⟨fun habs => by simp [test_ehr_connection] at habs, ?_⟩,
        Or.inr ⟨by simp [test_ehr_connection], ?_⟩⟩
      · rintro ⟨data', text', t', heq, hok⟩
        cases heq
      · simp only [test_ehr_connection]
        exact str_append_ne_empty _ _ (str_append_ne_empty _ _ (by decide))
  | exn m =>
      refine ⟨⟨fun habs => by simp [test_ehr_connection] at habs, ?_⟩,
        Or.inr ⟨by simp [test_ehr_connection], ?_⟩⟩
      · rintro ⟨data', text', t', heq, hok⟩
        cases heq
      · simp only [test_ehr_connection]
        exact str_append_ne_empty _ _ (by decide)

/-- **C8** (code_bug): the claim describes the output of the bundle-building
pipeline as deterministic except for timestamp fields. In the program the
pipeline never produces a bundle at all: `create_encounter_resource` raises
`ValidationError` (the zero-argument `FHIREncounter()` with required
`class`/`subject`/`period`) before the medication requests and vitals are
processed, so `create_fhir_bundle` is never reached — for every input
(first conjunct), and in particular for the concrete prescription with
fixed assigned ids and a frozen clock (second conjunct). -/
theorem c8_pipeline_never_produces_bundle :
    (∀ (obsUuids : Nat → String) (now : String) (currentYear : Int)
       (p : Prescription) (d : DoctorInfo) (pid prid eid : String)
       (medIds : Nat → String),
       build_submission_bundle obsUuids now currentYear p d pid prid eid
           medIds =
         .error "ValidationError: 3 validation errors for FHIREncounter") ∧
    build_submission_bundle (fun _ => "obs-a") "2026-01-01T00:00:00+00:00" 2026
      prescriptionEx doctorEx "pid" "prid" "eid" (fun _ => "mid") =
      .error "ValidationError: 3 validation errors for FHIREncounter" := by
  exact ⟨fun obsUuids now currentYear p d pid prid eid medIds => rfl, rfl⟩

/-- Helper: `update_one` leaves the first `p`-matching document at the first
`p`-matching position, with `f` applied (`f` must preserve the match). -/
theorem updateFirstBy_find {α : Type} [DecidableEq α] (p : α → Bool)
    (f : α → α) (l : List α) (r : α) (h : l.find? p = some r)
    (hpf : ∀ x, p x = true → p (f x) = true) :
    (updateFirstBy p f l).1.find? p = some (f r) := by
  induction l with
  | nil => simp at h
  | cons a t ih =>
      by_cases hp : p a
      · rw [List.find?_cons_of_pos _ hp] at h
        have ha : r = a := (Option.some.inj h).symm
        subst ha
        simp only [updateFirstBy, if_pos hp]
        rw [List.find?_cons_of_pos _ (hpf _ hp)]
      · rw [List.find?_cons_of_neg _ hp] at h
        simp only [updateFirstBy, if_neg hp]
        rw [List.find?_cons_of_neg _ hp]
        exact ih h

/-- Helper: `update_one` reports `modified_count > 0` exactly when a matching
document existed and applying `f` changed it. -/
theorem updateFirstBy_snd {α : Type} [DecidableEq α] (p : α → Bool)
    (f : α → α) (l : List α) :
    (updateFirstBy p f l).2 = true ↔ ∃ r, l.find? p = some r ∧ f r ≠ r := by
  induction l with
  | nil => simp [updateFirstBy]
  | cons a t ih =>
      by_cases hp : p a
      · simp only [updateFirstBy, if_pos hp, List.find?_cons_of_pos _ hp]
        constructor
        · intro hd
          exact ⟨a, rfl, by simpa using hd⟩
        · rintro ⟨r, hr, hne⟩
          cases hr
          simpa using hne
      · simp only [updateFirstBy, if_neg hp, List.find?_cons_of_neg _ hp]
        exact ih

/-- Helper: the combined effect of `update_ehr_submission_status` on the
first document matching the submission id — the `$inc` stage (for
`"retry"`), then the `$set` stage. -/
theorem update_status_first_match (coll : List SubmissionRow)
    (sid status : String) (er : Option (List (String × JVal)))
    (em : Option String) (now : Nat) (r : SubmissionRow)
    (h : coll.find? (fun x => x.id == sid) = some r) :
    (update_ehr_submission_status coll sid status er em now).1.find?
      (fun x => x.id == sid) =
      some (setUpdate status er em now (incRetry status r)) := by
  unfold update_ehr_submission_status
  by_cases hr : status = "retry"
  · simp only [hr, if_pos rfl]
    have h1 := updateFirstBy_find (fun x => x.id == sid)
      (fun x => { x with retry_count := x.retry_count + 1 }) coll r h
      (fun x hx => hx)
    have h2 := updateFirstBy_find (fun x => x.id == sid)
      (setUpdate "retry" er em now) _ _ h1 (fun x hx => hx)
    simpa [incRetry, hr] using h2
  · simp only [if_neg hr]
    have h2 := updateFirstBy_find (fun x => x.id == sid)
      (setUpdate status er em now) coll r h (fun x hx => hx)
    simpa [incRetry, hr] using h2

/-- **C4** (confirmed): `save_ehr_submission` initialises
`status="pending"`, `retry_count=0`, `completed_at=null`;
`update_ehr_submission_status` with `"success"` or `"failed"` stamps
`completed_at` with the current time; with `"retry"` it increments
`retry_count` by exactly 1 and leaves `completed_at` unchanged (so unset on
a freshly created submission). -/
theorem c4_ledger_create_and_status_transitions :
    (∀ (d : String) (s : EHRSubmission) (nid : String) (now : Nat),
      (save_ehr_submission d s nid now).status = "pending" ∧
      (save_ehr_submission d s nid now).retry_count = 0 ∧
      (save_ehr_submission d s nid now).completed_at = none) ∧
    (∀ (coll : List SubmissionRow) (sid st : String)
      (er : Option (List (String × JVal))) (em : Option String) (now : Nat)
      (r : SubmissionRow),
      st = "success" ∨ st = "failed" →
      coll.find? (fun x => x.id == sid) = some r →
      ((update_ehr_submission_status coll sid st er em now).1.find?
        (fun x => x.id == sid)).map (fun x => x.completed_at) =
        some (some now)) ∧
    (∀ (coll : List SubmissionRow) (sid : String)
      (er : Option (List (String × JVal))) (em : Option String) (now : Nat)
      (r : SubmissionRow),
      coll.find? (fun x => x.id == sid) = some r →
      ((update_ehr_submission_status coll sid "retry" er em now).1.find?
        (fun x => x.id == sid)).map
          (fun x => (x.retry_count, x.completed_at)) =
        some (r.retry_count + 1, r.completed_at)) := by
  refine ⟨fun d s nid now => ⟨rfl, rfl, rfl⟩, ?_, ?_⟩
  · intro coll sid st er em now r hst h
    rw [update_status_first_match coll sid st er em now r h]
    rcases hst with rfl | rfl <;> simp [setUpdate]
  · intro coll sid er em now r h
    rw [update_status_first_match coll sid "retry" er em now r h]
    simp [setUpdate, incRetry]

/-- Witness for C4 at a concrete ledger: marking a fresh submission
`"failed"` stamps `completed_at` with the call instant. -/
theorem c4_ledger_witness :
    (("failed" = "success" ∨ "failed" = "failed") ∧
      [subRowEx].find? (fun x => x.id == "sub-1") = some subRowEx) ∧
    ((update_ehr_submission_status [subRowEx] "sub-1" "failed" none
        (some "timeout") 5).1.find?
      (fun x => x.id == "sub-1")).map (fun x => x.completed_at) =
      some (some 5) :=
  ⟨⟨Or.inr rfl, by decide⟩,
   c4_ledger_create_and_status_transitions.2.1 [subRowEx] "sub-1" "failed"
     none (some "timeout") 5 subRowEx (Or.inr rfl) (by decide)⟩

/-- **C10** (counterexample): the claim says that with falsy
`ehr_response`/`error_message` only `status`, `updated_at` and (for
success/failed) `completed_at` are written. But a `"retry"` update with both
optional arguments absent also increments the stored `retry_count` (0
becomes 1 here), a write outside that enumeration. -/
theorem c10_retry_also_writes_retry_count :
    ((update_ehr_submission_status [subRowEx] "sub-1" "retry" none none
        5).1.find?
      (fun x => x.id == "sub-1")).map (fun x => x.retry_count) = some 1 ∧
    subRowEx.retry_count = 0 := by decide

/-- **C10** (amended, proved): with falsy `ehr_response` and `error_message`,
`update_ehr_submission_status` leaves the stored `ehr_response` and
`error_message` (and every identity/payload field) unchanged; the only
fields written are `status`, `updated_at`, `completed_at` (for
success/failed) and `retry_count` (for retry) — the explicit record on the
right shows every other field inherited from the old row. -/
theorem c10_update_frame_on_falsy_inputs (coll : List SubmissionRow)
    (sid st : String) (er : Option (List (String × JVal)))
    (em : Option String) (now : Nat) (r : SubmissionRow)
    (her : dictTruthy er = false) (hem : strTruthy em = none)
    (h : coll.find? (fun x => x.id == sid) = some r) :
    (update_ehr_submission_status coll sid st er em now).1.find?
      (fun x => x.id == sid) =
      some { r with
        status := st
        updated_at := some now
        completed_at :=
          if st = "success" ∨ st = "failed" then some now else r.completed_at
        retry_count :=
          if st = "retry" then r.retry_count + 1 else r.retry_count } := by
  rw [update_status_first_match coll sid st er em now r h]
  by_cases hr : st = "retry" <;>
    simp [setUpdate, incRetry, her, hem, hr]

/-- Witness for C10 at a concrete ledger row and a `"pending"` update with
both optional arguments absent. -/
theorem c10_frame_witness :
    (dictTruthy none = false ∧ strTruthy none = none ∧
      [subRowEx].find? (fun x => x.id == "sub-1") = some subRowEx) ∧
    (update_ehr_submission_status [subRowEx] "sub-1" "pending" none none
        7).1.find?
      (fun x => x.id == "sub-1") =
      some { subRowEx with
        status := "pending"
        updated_at := some 7
        completed_at :=
          if "pending" = "success" ∨ "pending" = "failed" then some 7
          else subRowEx.completed_at
        retry_count :=
          if "pending" = "retry" then subRowEx.retry_count + 1
          else subRowEx.retry_count } :=
  ⟨⟨rfl, rfl, by decide⟩,
   c10_update_frame_on_falsy_inputs [subRowEx] "sub-1" "pending" none none 7
     subRowEx rfl rfl (by decide)⟩

/-- **C5** (counterexample): the pruning in `save_ehr_connection_test`
deletes everything beyond the 10 newest records *before* inserting the new
one, so after 12 saves for the same (doctor, provider) pair 11 records
remain, not the "at most 10 / exactly 10" the claim states. -/
theorem c5_twelve_saves_leave_eleven :
    (saveConnectionTests (List.range 12)).length = 11 ∧
    (saveConnectionTests (List.range 12)).length ≠ 10 := by decide

/-- **C5** (amended, proved): a save leaves at most 11 records (the existing
history is pruned to its 10 newest, then the new record is inserted), and
after 12 saves with increasing timestamps exactly 11 remain — the 11 most
recent (timestamps 1..11 of 0..11, newest first). -/
theorem c5_prune_caps_history_at_eleven (hist : List Nat) (ts : Nat) :
    (save_ehr_connection_test hist ts).length ≤ 11 ∧
    saveConnectionTests (List.range 12) =
      [11, 10, 9, 8, 7, 6, 5, 4, 3, 2, 1] := by
  constructor
  · simp only [save_ehr_connection_test, List.length_cons]
    exact Nat.succ_le_succ (List.length_take_le _ _)
  · decide

/-- Helper: after `replace_one` of the first (doctor, provider) match with an
active row for the same pair, `find_one` with the `is_active` filter returns
the replacement (ids assumed unique in the collection). -/
theorem replaceFirst_find (coll : List ConfigRow) (d prov : String)
    (ex nr : ConfigRow)
    (hfind : coll.find? (fun r => r.doctor_id == d && r.provider == prov) =
      some ex)
    (hnodup : (coll.map (fun r => r.id)).Nodup)
    (hd : nr.doctor_id = d) (hprov : nr.provider = prov)
    (hact : nr.is_active = true) :
    (replaceFirstById coll ex.id nr).find?
      (fun r => r.doctor_id == d && r.provider == prov && r.is_active) =
      some nr := by
  induction coll with
  | nil => simp at hfind
  | cons a t ih =>
      simp only [List.map_cons, List.nodup_cons] at hnodup
      by_cases hp : (a.doctor_id == d && a.provider == prov) = true
      · simp only [List.find?_cons, hp] at hfind
        have ha : a = ex := Option.some.inj hfind
        subst ha
        have hnr : (nr.doctor_id == d && nr.provider == prov && nr.is_active)
            = true := by simp [hd, hprov, hact]
        simp [replaceFirstById, List.find?_cons, hnr]
      · rw [Bool.not_eq_true] at hp
        simp only [List.find?_cons, hp] at hfind
        have hmem : ex ∈ t := List.mem_of_find?_eq_some hfind
        have haid : (a.id == ex.id) = false := by
          rw [beq_eq_false_iff_ne]
          intro he
          exact hnodup.1 (he ▸ List.mem_map_of_mem (fun r => r.id) hmem)
        have hnp : (a.doctor_id == d && a.provider == prov && a.is_active)
            = false := by
          simp only [Bool.and_eq_false_iff]
          left
          exact Bool.and_eq_false_iff.mp hp |>.elim Or.inl Or.inr
        simp only [replaceFirstById, haid, Bool.false_eq_true, if_neg,
          not_false_iff, List.find?_cons, hnp]
        exact ih hfind hnodup.2

/-- **C6** (confirmed): when a configuration already exists for the
(doctor, provider) pair, `save_ehr_configuration` replaces it as an upsert —
the written document keeps the existing id and original `created_at`
(`configRowOf cfg ex.id d ex.created_at now true` spells out that every
other field comes from the new configuration, with `is_active = true` and a
fresh `updated_at`) — and a subsequent `get_ehr_configuration_by_provider`
returns exactly that document. Ids are assumed unique in the collection, an
invariant the store maintains. -/
theorem c6_configuration_upsert (coll : List ConfigRow) (d : String)
    (cfg : EHRConfiguration) (nid : String) (now : Nat) (ex : ConfigRow)
    (hfind : coll.find?
      (fun r => r.doctor_id == d && r.provider == cfg.provider) = some ex)
    (hnodup : (coll.map (fun r => r.id)).Nodup) :
    (save_ehr_configuration coll d cfg nid now).2 =
      configRowOf cfg ex.id d ex.created_at now true ∧
    get_ehr_configuration_by_provider
      (save_ehr_configuration coll d cfg nid now).1 d cfg.provider =
      some (configRowOf cfg ex.id d ex.created_at now true) := by
  unfold save_ehr_configuration get_ehr_configuration_by_provider
  rw [hfind]
  exact ⟨rfl,
    replaceFirst_find coll d cfg.provider ex
      (configRowOf cfg ex.id d ex.created_at now true) hfind hnodup
      rfl rfl rfl⟩

/-- Witness for C6: saving a second Epic configuration for the same doctor
makes `get_by_provider` return the new `base_url` under the original id and
`created_at`. -/
theorem c6_upsert_witness :
    get_ehr_configuration_by_provider
      (save_ehr_configuration
        (save_ehr_configuration [] "doc-1" cfg1 "cfg-id-1" 1).1
        "doc-1" cfg2 "cfg-id-2" 2).1 "doc-1" "Epic" =
      some (configRowOf cfg2 "cfg-id-1" "doc-1" 1 2 true) :=
  (c6_configuration_upsert (save_ehr_configuration [] "doc-1" cfg1 "cfg-id-1"
      1).1
    "doc-1" cfg2 "cfg-id-2" 2 (configRowOf cfg1 "cfg-id-1" "doc-1" 1 1 true)
    (by decide) (by decide)).2

/-- **C9** (counterexample): the claim says deleting an already-inactive
configuration returns false. But the `update_one` filter has no `is_active`
condition and the `$set` also stamps `updated_at` with the call time, so on
an inactive row whose stored `updated_at` (5) differs from the call time (6)
the document is modified and the call returns true. -/
theorem c9_deleting_inactive_returns_true :
    inactiveCfgRow.is_active = false ∧
    (delete_ehr_configuration [inactiveCfgRow] "doc-9" "cfg-9" 6).2 = true :=
  by decide

/-- **C9** (amended, proved): `delete_ehr_configuration` soft-deletes the
first row matching (config_id, doctor_id) — afterwards that row has
`is_active=false` and `updated_at=now` — and returns true iff such a row
existed and the write changed it, i.e. iff the row was active or its stored
`updated_at` differed from the call time; activity of the row is not
required. -/
theorem c9_delete_returns_whether_write_changed_row (coll : List ConfigRow)
    (d cid : String) (now : Nat) :
    ((delete_ehr_configuration coll d cid now).2 = true ↔
      ∃ r, coll.find? (fun x => x.id == cid && x.doctor_id == d) = some r ∧
        (r.is_active = true ∨ r.updated_at ≠ now)) ∧
    (∀ r, coll.find? (fun x => x.id == cid && x.doctor_id == d) = some r →
      (delete_ehr_configuration coll d cid now).1.find?
        (fun x => x.id == cid && x.doctor_id == d) =
        some { r with is_active := false, updated_at := now }) := by
  constructor
  · rw [delete_ehr_configuration, updateFirstBy_snd]
    constructor
    · rintro ⟨r, hr, hne⟩
      refine ⟨r, hr, ?_⟩
      by_contra hc
      push_neg at hc
      apply hne
      have h1 : r.is_active = false := by
        cases hia : r.is_active
        · rfl
        · exact absurd hia hc.1
      cases r
      simp_all
    · rintro ⟨r, hr, hor⟩
      refine ⟨r, hr, ?_⟩
      intro he
      have h1 : r.is_active = false := by rw [← he]
      have h2 : r.updated_at = now := by rw [← he]
      rcases hor with h | h
      · rw [h1] at h; cases h
      · exact h h2
  · intro r hr
    rw [delete_ehr_configuration]
    exact updateFirstBy_find _ _ coll r hr (fun x hx => hx)

/-- Witness for C9's soft-delete effect at a concrete collection. -/
theorem c9_delete_witness :
    ([inactiveCfgRow].find?
       (fun x => x.id == "cfg-9" && x.doctor_id == "doc-9") =
       some inactiveCfgRow) ∧
    (delete_ehr_configuration [inactiveCfgRow] "doc-9" "cfg-9" 6).1.find?
      (fun x => x.id == "cfg-9" && x.doctor_id == "doc-9") =
      some { inactiveCfgRow with is_active := false, updated_at := 6 } :=
  ⟨by decide,
   (c9_delete_returns_whether_write_changed_row [inactiveCfgRow] "doc-9"
     "cfg-9" 6).2 inactiveCfgRow (by decide)⟩

/-- **C7** (counterexample): the claim says the outcome for an
ownership-mismatched prescription is identical to the outcome for a
nonexistent id. In the handler they differ: doctor B submitting doctor A's
prescription `rx-1` gets HTTP 403 "Access denied", while a nonexistent
`rx-404` gets HTTP 404 "Prescription not found" — distinguishable outcomes,
so existence is leaked. -/
theorem c7_ownership_mismatch_distinguishable_from_not_found :
    submitPrescriptionGate gateDbEx "rx-1" "doc-B" =
      .httpError 403 "Access denied" ∧
    submitPrescriptionGate gateDbEx "rx-404" "doc-B" =
      .httpError 404 "Prescription not found" ∧
    submitPrescriptionGate gateDbEx "rx-1" "doc-B" ≠
      submitPrescriptionGate gateDbEx "rx-404" "doc-B" := by decide

/-- **C7** (amended, proved): a nonexistent prescription id yields HTTP 404
"Prescription not found"; an existing prescription owned by a different
doctor yields HTTP 403 "Access denied"; both deny the operation but the two
outcomes are distinct, so ownership mismatch is distinguishable from
not-found. -/
theorem c7_gate_distinguishes_403_from_404 (db : List PrescriptionRow)
    (pid caller : String) :
    (db.find? (fun r => r.id == pid) = none →
      submitPrescriptionGate db pid caller =
        .httpError 404 "Prescription not found") ∧
    (∀ p, db.find? (fun r => r.id == pid) = some p → p.doctor_id ≠ caller →
      submitPrescriptionGate db pid caller =
        .httpError 403 "Access denied") ∧
    (SubmitGate.httpError 403 "Access denied" ≠
      SubmitGate.httpError 404 "Prescription not found") := by
  refine ⟨fun h => ?_, fun p h hne => ?_, by decide⟩
  · simp [submitPrescriptionGate, h]
  · simp [submitPrescriptionGate, h, hne]

/-- Witness for C7 at the concrete table: the ownership-mismatch branch. -/
theorem c7_gate_witness :
    (gateDbEx.find? (fun r => r.id == "rx-1") =
       some { id := "rx-1", doctor_id := "doc-A" } ∧
     ("doc-A" : String) ≠ "doc-B") ∧
    submitPrescriptionGate gateDbEx "rx-1" "doc-B" =
      .httpError 403 "Access denied" :=
  ⟨⟨by decide, by decide⟩,
   (c7_gate_distinguishes_403_from_404 gateDbEx "rx-1" "doc-B").2.1
     { id := "rx-1", doctor_id := "doc-A" } (by decide) (by decide)⟩

end Smartdoc
